import Mathlib

/-!
Verification of the upload pipeline of the tumblr-upload-agent repository.

The development shallowly embeds the parts of the source that the verified
properties speak about:

* `app/agents/rate_limiter.py` — the `RateLimitingAgent` admission controller
  (`_should_allow_upload_impl`, `_record_upload_impl`, `_calculate_wait_time`);
* `app/agents/orchestrator.py` — the per-file workflow
  (`_process_upload_workflow`, `_validate_file_ready`,
  `_handle_successful_upload`, `_handle_failed_upload`,
  `_handle_workflow_error`, `_main_workflow`);
* `app/agents/file_manager.py` — `_move_to_failed_impl`.

Machine floats (`time.time()`, `upload_delay`) are modelled as rationals;
Python ints as `Int`/`Nat`.  Wall-clock readings (`datetime.now()` together
with `time.time()`) are bundled into a `Clock` record; the code never checks
coherence between the epoch value and the calendar fields, and neither does
the model.  Effects of the orchestrator (file deletion, moves into the failed
tree, lifecycle events, rate-limiter recording) are reified as an `Action`
trace so that theorems can speak about which file-system operations a
pipeline pass performs.
-/

/-- One reading of the wall clock: `epoch` models `time.time()`, and
`hour`/`minute`/`second`/`microsecond` model the fields of `datetime.now()`. -/
structure Clock where
  epoch : ℚ
  hour : ℕ
  minute : ℕ
  second : ℕ
  microsecond : ℕ
deriving DecidableEq, Repr

/-- `RateLimitConfig` from `app/models/config.py` (the four tunables). -/
structure RateLimitConfig where
  upload_delay : ℚ
  max_uploads_per_hour : ℤ
  max_uploads_per_day : ℤ
  burst_limit : ℕ
deriving DecidableEq, Repr

/-- The mutable state of `RateLimitingAgent`:
`last_upload_time`, the `upload_times` deque (bounded to `burst_limit`
entries, oldest first), `hourly_uploads`, `daily_uploads` and the
`current_hour` marker.  Counters are embedded as `Int`, as in Python, so
that non-negativity is a real invariant and not a typing artefact. -/
structure RateLimiterState where
  last_upload_time : ℚ
  upload_times : List ℚ
  hourly_uploads : ℤ
  daily_uploads : ℤ
  current_hour : ℕ
deriving DecidableEq, Repr

/-- `RateLimitingAgent.__init__`: counters at zero, empty deque,
`current_hour` taken from the clock at construction time
(`last_upload_time` has class default `0`). -/
def init_state (hour : ℕ) : RateLimiterState :=
  { last_upload_time := 0
    upload_times := []
    hourly_uploads := 0
    daily_uploads := 0
    current_hour := hour }

/-- The lazy hourly reset at the top of `_should_allow_upload_impl`
(rate_limiter.py lines 66-69): when the wall-clock hour differs from the
stored marker, zero the hourly counter and update the marker. -/
def hourly_reset (s : RateLimiterState) (now : Clock) : RateLimiterState :=
  if now.hour ≠ s.current_hour then
    { s with hourly_uploads := 0, current_hour := now.hour }
  else s

/-- `_should_allow_upload_impl` (rate_limiter.py lines 58-112): after the
lazy hourly reset, check daily limit, hourly limit, minimum delay and burst
window in that order, returning `false` on the first violated constraint.
Returns the decision together with the state left behind by the check.
The `none` branch of the head lookup is unreachable whenever
`1 ≤ burst_limit` (the deque then holds at least one entry when its length
reaches `burst_limit`); theorems about this function carry that bound. -/
def should_allow_check (cfg : RateLimitConfig) (s1 : RateLimiterState)
    (now : Clock) : Bool × RateLimiterState :=
  if cfg.max_uploads_per_day ≤ s1.daily_uploads then (false, s1)
  else if cfg.max_uploads_per_hour ≤ s1.hourly_uploads then (false, s1)
  else if now.epoch - s1.last_upload_time < cfg.upload_delay then (false, s1)
  else if cfg.burst_limit ≤ s1.upload_times.length then
    match s1.upload_times.head? with
    | some oldest => if now.epoch - oldest < 60 then (false, s1) else (true, s1)
    | none => (true, s1)
  else (true, s1)

/-- `_should_allow_upload_impl` proper: the lazy hourly reset (lines 66-69)
followed by the four ordered checks on the reset state. -/
def should_allow_upload_impl (cfg : RateLimitConfig) (s : RateLimiterState)
    (now : Clock) : Bool × RateLimiterState :=
  should_allow_check cfg (hourly_reset s now) now

/-- Appending to a `deque(maxlen := n)`: the new element goes to the back
and, when the bound is exceeded, elements fall off the front. -/
def deque_append (maxlen : ℕ) (l : List ℚ) (t : ℚ) : List ℚ :=
  let l2 := l ++ [t]
  if maxlen < l2.length then l2.drop (l2.length - maxlen) else l2

/-- `_record_upload_impl` (rate_limiter.py lines 118-135): set
`last_upload_time`, increment both counters, append the timestamp to the
burst-tracking deque. -/
def record_upload_impl (cfg : RateLimitConfig) (s : RateLimiterState)
    (t : ℚ) : RateLimiterState :=
  { s with
    last_upload_time := t
    hourly_uploads := s.hourly_uploads + 1
    daily_uploads := s.daily_uploads + 1
    upload_times := deque_append cfg.burst_limit s.upload_times t }

/-- States reachable from a freshly constructed agent by a sequence of
`record_upload` calls. -/
inductive Reachable (cfg : RateLimitConfig) : RateLimiterState → Prop where
  | init (hour : ℕ) : Reachable cfg (init_state hour)
  | record {s : RateLimiterState} (t : ℚ) :
      Reachable cfg s → Reachable cfg (record_upload_impl cfg s t)

/-- Constraint (1) of the admission check: the daily counter has reached its
configured maximum. -/
def day_limit_violated (cfg : RateLimitConfig) (s : RateLimiterState) : Bool :=
  cfg.max_uploads_per_day ≤ s.daily_uploads

/-- Constraint (2): the hourly counter, as it stands after the lazy hourly
reset performed at evaluation time, has reached its configured maximum. -/
def hour_limit_violated (cfg : RateLimitConfig) (s : RateLimiterState)
    (now : Clock) : Bool :=
  cfg.max_uploads_per_hour ≤ (hourly_reset s now).hourly_uploads

/-- Constraint (3): less than `upload_delay` seconds elapsed since the last
recorded upload. -/
def delay_violated (cfg : RateLimitConfig) (s : RateLimiterState)
    (now : Clock) : Bool :=
  now.epoch - s.last_upload_time < cfg.upload_delay

/-- Constraint (4): the burst-tracking window is full (it holds the most
recent `burst_limit` upload timestamps) and its oldest entry is less than
60 seconds old, i.e. `burst_limit` uploads were recorded within the
trailing 60 seconds. -/
def burst_limit_violated (cfg : RateLimitConfig) (s : RateLimiterState)
    (now : Clock) : Bool :=
  decide (cfg.burst_limit ≤ s.upload_times.length) &&
    match s.upload_times.head? with
    | some oldest => decide (now.epoch - oldest < 60)
    | none => false

theorem hourly_reset_daily (s : RateLimiterState) (now : Clock) :
    (hourly_reset s now).daily_uploads = s.daily_uploads := by
  unfold hourly_reset; split <;> rfl

theorem hourly_reset_last (s : RateLimiterState) (now : Clock) :
    (hourly_reset s now).last_upload_time = s.last_upload_time := by
  unfold hourly_reset; split <;> rfl

theorem hourly_reset_times (s : RateLimiterState) (now : Clock) :
    (hourly_reset s now).upload_times = s.upload_times := by
  unfold hourly_reset; split <;> rfl

/-- C1.  On every state reachable by a sequence of `record_upload` calls,
the admission check `_should_allow_upload_impl` returns `false` exactly when
at least one of the four constraints — daily counter at its maximum, hourly
counter (after the lazy reset performed at evaluation time) at its maximum,
less than `upload_delay` seconds since the last recorded upload, or
`burst_limit` uploads recorded within the trailing 60 seconds — is violated
at evaluation time, and `true` only when none of them is. -/
theorem should_allow_false_iff_violation (cfg : RateLimitConfig)
    (s : RateLimiterState) (now : Clock) (hb : 1 ≤ cfg.burst_limit)
    (hreach : Reachable cfg s) :
    (should_allow_upload_impl cfg s now).fst = false ↔
      (day_limit_violated cfg s = true ∨ hour_limit_violated cfg s now = true ∨
       delay_violated cfg s now = true ∨ burst_limit_violated cfg s now = true) := by
  unfold should_allow_upload_impl should_allow_check day_limit_violated
    hour_limit_violated delay_violated burst_limit_violated
  rw [← hourly_reset_daily s now, ← hourly_reset_last s now,
    ← hourly_reset_times s now]
  set s1 := hourly_reset s now with hs1
  by_cases h1 : cfg.max_uploads_per_day ≤ s1.daily_uploads
  · simp [h1]
  · simp only [if_neg h1]
    by_cases h2 : cfg.max_uploads_per_hour ≤ s1.hourly_uploads
    · simp [h1, h2]
    · simp only [if_neg h2]
      by_cases h3 : now.epoch - s1.last_upload_time < cfg.upload_delay
      · simp [h1, h2, h3]
      · simp only [if_neg h3]
        by_cases h4 : cfg.burst_limit ≤ s1.upload_times.length
        · simp only [if_pos h4]
          rcases hh : s1.upload_times.head? with _ | oldest
          · exfalso
            have : s1.upload_times = [] := List.head?_eq_none_iff.mp hh
            rw [this] at h4
            simp at h4
            omega
          · by_cases h5 : now.epoch - oldest < 60
            · simp [h1, h2, h3, h4, h5, hh]
            · simp [h1, h2, h3, h4, h5, hh]
        · simp only [if_neg h4]
          simp [h1, h2, h3, h4]

/-- Python `max` over a list of waits, with `0` for the empty list
(`return max(wait_times) if wait_times else 0`). -/
def qmax : List ℚ → ℚ
  | [] => 0
  | x :: xs => xs.foldl max x

theorem le_foldl_max (xs : List ℚ) (a : ℚ) : a ≤ xs.foldl max a := by
  induction xs generalizing a with
  | nil => exact le_refl a
  | cons x xs ih => exact le_trans (le_max_left a x) (ih (max a x))

theorem mem_le_foldl_max (xs : List ℚ) (a x : ℚ) (hx : x ∈ xs) :
    x ≤ xs.foldl max a := by
  induction xs generalizing a with
  | nil => cases hx
  | cons y ys ih =>
    rcases List.mem_cons.mp hx with rfl | hmem
    · exact le_trans (le_max_right a x) (le_foldl_max ys (max a x))
    · exact ih (max a y) hmem

theorem foldl_max_mem (xs : List ℚ) (a : ℚ) :
    xs.foldl max a = a ∨ xs.foldl max a ∈ xs := by
  induction xs generalizing a with
  | nil => exact Or.inl rfl
  | cons y ys ih =>
    rcases ih (max a y) with h | h
    · rcases le_total a y with hay | hya
      · right
        rw [List.foldl_cons, h, max_eq_right hay]
        exact List.mem_cons_self y ys
      · left
        rw [List.foldl_cons, h, max_eq_left hya]
    · exact Or.inr (List.mem_cons_of_mem y h)

theorem le_qmax_of_mem (l : List ℚ) (x : ℚ) (hx : x ∈ l) : x ≤ qmax l := by
  cases l with
  | nil => cases hx
  | cons y ys =>
    rcases List.mem_cons.mp hx with rfl | hmem
    · exact le_foldl_max ys x
    · exact mem_le_foldl_max ys y x hmem

theorem qmax_mem (l : List ℚ) (hl : l ≠ []) : qmax l ∈ l := by
  cases l with
  | nil => exact absurd rfl hl
  | cons y ys =>
    rcases foldl_max_mem ys y with h | h
    · rw [qmax, h]; exact List.mem_cons_self y ys
    · exact List.mem_cons_of_mem y h

/-- Seconds until the next hour boundary, as computed by
`next_hour = now.replace(minute=0, second=0, microsecond=0) + timedelta(hours=1)`
followed by `(next_hour - now).total_seconds()`. -/
def seconds_to_next_hour (now : Clock) : ℚ :=
  3600 - (60 * (now.minute : ℚ) + (now.second : ℚ) + (now.microsecond : ℚ) / 1000000)

/-- Seconds until the next midnight, as computed by
`next_day = now.replace(hour=0, minute=0, second=0, microsecond=0) + timedelta(days=1)`
followed by `(next_day - now).total_seconds()`. -/
def seconds_to_next_midnight (now : Clock) : ℚ :=
  86400 - (3600 * (now.hour : ℚ) + 60 * (now.minute : ℚ) + (now.second : ℚ) +
    (now.microsecond : ℚ) / 1000000)

/-- The `wait_times` list built by `_calculate_wait_time`
(rate_limiter.py lines 155-186): one entry per currently violated
constraint, holding the remaining duration of that constraint. -/
def wait_times_list (cfg : RateLimitConfig) (s : RateLimiterState)
    (now : Clock) : List ℚ :=
  (if now.epoch - s.last_upload_time < cfg.upload_delay
   then [cfg.upload_delay - (now.epoch - s.last_upload_time)] else []) ++
  (if cfg.burst_limit ≤ s.upload_times.length then
     match s.upload_times.head? with
     | some oldest =>
         if 0 < 60 - (now.epoch - oldest) then [60 - (now.epoch - oldest)] else []
     | none => []
   else []) ++
  (if cfg.max_uploads_per_hour ≤ s.hourly_uploads
   then [seconds_to_next_hour now] else []) ++
  (if cfg.max_uploads_per_day ≤ s.daily_uploads
   then [seconds_to_next_midnight now] else [])

/-- `_calculate_wait_time`: the maximum of the violated constraints'
remaining durations, `0` when the list is empty. -/
def calculate_wait_time (cfg : RateLimitConfig) (s : RateLimiterState)
    (now : Clock) : ℚ :=
  qmax (wait_times_list cfg s now)

/-- The delay constraint is still pending: less than `upload_delay` seconds
since the last recorded upload. -/
def DelayWaitPending (cfg : RateLimitConfig) (s : RateLimiterState)
    (now : Clock) : Prop :=
  now.epoch - s.last_upload_time < cfg.upload_delay

/-- Remaining duration of the delay constraint. -/
def delay_remaining (cfg : RateLimitConfig) (s : RateLimiterState)
    (now : Clock) : ℚ :=
  cfg.upload_delay - (now.epoch - s.last_upload_time)

/-- Oldest timestamp of the burst window (the window is nonempty whenever
its length reaches a positive `burst_limit`). -/
def burst_oldest (s : RateLimiterState) : ℚ :=
  s.upload_times.head?.getD 0

/-- Remaining duration of the burst constraint: `60 - (now - oldest)`. -/
def burst_remaining (s : RateLimiterState) (now : Clock) : ℚ :=
  60 - (now.epoch - burst_oldest s)

/-- The burst constraint is pending: a full window whose reset lies in the
future. -/
def BurstWaitPending (cfg : RateLimitConfig) (s : RateLimiterState)
    (now : Clock) : Prop :=
  cfg.burst_limit ≤ s.upload_times.length ∧ 0 < burst_remaining s now

/-- The hourly constraint is pending (counter at its configured maximum). -/
def HourWaitPending (cfg : RateLimitConfig) (s : RateLimiterState) : Prop :=
  cfg.max_uploads_per_hour ≤ s.hourly_uploads

/-- The daily constraint is pending (counter at its configured maximum). -/
def DayWaitPending (cfg : RateLimitConfig) (s : RateLimiterState) : Prop :=
  cfg.max_uploads_per_day ≤ s.daily_uploads

theorem mem_wait_times_list (cfg : RateLimitConfig) (s : RateLimiterState)
    (now : Clock) (hb : 1 ≤ cfg.burst_limit) (x : ℚ) :
    x ∈ wait_times_list cfg s now ↔
      (DelayWaitPending cfg s now ∧ x = delay_remaining cfg s now) ∨
      (BurstWaitPending cfg s now ∧ x = burst_remaining s now) ∨
      (HourWaitPending cfg s ∧ x = seconds_to_next_hour now) ∨
      (DayWaitPending cfg s ∧ x = seconds_to_next_midnight now) := by
  have hburst : (if cfg.burst_limit ≤ s.upload_times.length then
      match s.upload_times.head? with
      | some oldest =>
          if 0 < 60 - (now.epoch - oldest) then [60 - (now.epoch - oldest)] else []
      | none => []
    else []) = if cfg.burst_limit ≤ s.upload_times.length ∧ 0 < burst_remaining s now
      then [burst_remaining s now] else [] := by
    by_cases hlen : cfg.burst_limit ≤ s.upload_times.length
    · rcases hh : s.upload_times.head? with _ | oldest
      · exfalso
        have hnil : s.upload_times = [] := List.head?_eq_none_iff.mp hh
        rw [hnil] at hlen
        simp at hlen
        omega
      · have hold : burst_oldest s = oldest := by
          unfold burst_oldest; rw [hh]; rfl
        have hrem : burst_remaining s now = 60 - (now.epoch - oldest) := by
          rw [burst_remaining, hold]
        by_cases hpos : 0 < 60 - (now.epoch - oldest)
        · rw [if_pos hlen]
          show (if 0 < 60 - (now.epoch - oldest)
              then [60 - (now.epoch - oldest)] else []) = _
          rw [if_pos hpos, if_pos ⟨hlen, by rw [hrem]; exact hpos⟩, hrem]
        · rw [if_pos hlen]
          show (if 0 < 60 - (now.epoch - oldest)
              then [60 - (now.epoch - oldest)] else []) = _
          rw [if_neg hpos, if_neg (fun hcon => hpos (hrem ▸ hcon.2))]
    · rw [if_neg hlen, if_neg (fun h => hlen h.1)]
  unfold wait_times_list
  rw [hburst]
  unfold DelayWaitPending delay_remaining BurstWaitPending HourWaitPending
    DayWaitPending
  by_cases h1 : now.epoch - s.last_upload_time < cfg.upload_delay <;>
    by_cases h2 : cfg.burst_limit ≤ s.upload_times.length ∧ 0 < burst_remaining s now <;>
      by_cases h3 : cfg.max_uploads_per_hour ≤ s.hourly_uploads <;>
        by_cases h4 : cfg.max_uploads_per_day ≤ s.daily_uploads <;>
          simp [h1, h2, h3, h4] <;> tauto

/-- C2.  The wait computed by `_calculate_wait_time` is exactly the maximum
of the remaining durations of the currently violated constraints (delay:
`upload_delay` minus elapsed, burst: `60 - (now - oldest)`, hour: time to
the next hour boundary, day: time to the next midnight): it is `0` when no
constraint is violated, it dominates the remaining duration of every
violated constraint, and when some constraint is violated it equals the
remaining duration of one of the violated constraints — the maximum, not
the sum. -/
theorem wait_time_is_max_of_violated (cfg : RateLimitConfig)
    (s : RateLimiterState) (now : Clock) (hb : 1 ≤ cfg.burst_limit) :
    (¬ DelayWaitPending cfg s now → ¬ BurstWaitPending cfg s now →
     ¬ HourWaitPending cfg s → ¬ DayWaitPending cfg s →
       calculate_wait_time cfg s now = 0) ∧
    (DelayWaitPending cfg s now →
       delay_remaining cfg s now ≤ calculate_wait_time cfg s now) ∧
    (BurstWaitPending cfg s now →
       burst_remaining s now ≤ calculate_wait_time cfg s now) ∧
    (HourWaitPending cfg s →
       seconds_to_next_hour now ≤ calculate_wait_time cfg s now) ∧
    (DayWaitPending cfg s →
       seconds_to_next_midnight now ≤ calculate_wait_time cfg s now) ∧
    ((DelayWaitPending cfg s now ∨ BurstWaitPending cfg s now ∨
      HourWaitPending cfg s ∨ DayWaitPending cfg s) →
       (calculate_wait_time cfg s now = delay_remaining cfg s now ∧
          DelayWaitPending cfg s now) ∨
       (calculate_wait_time cfg s now = burst_remaining s now ∧
          BurstWaitPending cfg s now) ∨
       (calculate_wait_time cfg s now = seconds_to_next_hour now ∧
          HourWaitPending cfg s) ∨
       (calculate_wait_time cfg s now = seconds_to_next_midnight now ∧
          DayWaitPending cfg s)) := by
  refine ⟨?_, ?_, ?_, ?_, ?_, ?_⟩
  · intro hd hbv hh hdy
    have hnil : wait_times_list cfg s now = [] := by
      rcases hl : wait_times_list cfg s now with _ | ⟨y, ys⟩
      · rfl
      · exfalso
        have hy : y ∈ wait_times_list cfg s now := by
          rw [hl]; exact List.mem_cons_self y ys
        rcases (mem_wait_times_list cfg s now hb y).mp hy with h | h | h | h
        · exact hd h.1
        · exact hbv h.1
        · exact hh h.1
        · exact hdy h.1
    rw [calculate_wait_time, hnil]; rfl
  · intro hd
    exact le_qmax_of_mem _ _ ((mem_wait_times_list cfg s now hb _).mpr
      (Or.inl ⟨hd, rfl⟩))
  · intro hbv
    exact le_qmax_of_mem _ _ ((mem_wait_times_list cfg s now hb _).mpr
      (Or.inr (Or.inl ⟨hbv, rfl⟩)))
  · intro hh
    exact le_qmax_of_mem _ _ ((mem_wait_times_list cfg s now hb _).mpr
      (Or.inr (Or.inr (Or.inl ⟨hh, rfl⟩))))
  · intro hdy
    exact le_qmax_of_mem _ _ ((mem_wait_times_list cfg s now hb _).mpr
      (Or.inr (Or.inr (Or.inr ⟨hdy, rfl⟩))))
  · intro hany
    have hne : wait_times_list cfg s now ≠ [] := by
      intro hnil
      have hnomem : ∀ x : ℚ, x ∉ wait_times_list cfg s now := by
        intro x hx; rw [hnil] at hx; cases hx
      rcases hany with h | h | h | h
      · exact hnomem _ ((mem_wait_times_list cfg s now hb _).mpr
          (Or.inl ⟨h, rfl⟩))
      · exact hnomem _ ((mem_wait_times_list cfg s now hb _).mpr
          (Or.inr (Or.inl ⟨h, rfl⟩)))
      · exact hnomem _ ((mem_wait_times_list cfg s now hb _).mpr
          (Or.inr (Or.inr (Or.inl ⟨h, rfl⟩))))
      · exact hnomem _ ((mem_wait_times_list cfg s now hb _).mpr
          (Or.inr (Or.inr (Or.inr ⟨h, rfl⟩))))
    have hmem := qmax_mem _ hne
    rcases (mem_wait_times_list cfg s now hb _).mp hmem with h | h | h | h
    · exact Or.inl ⟨h.2, h.1⟩
    · exact Or.inr (Or.inl ⟨h.2, h.1⟩)
    · exact Or.inr (Or.inr (Or.inl ⟨h.2, h.1⟩))
    · exact Or.inr (Or.inr (Or.inr ⟨h.2, h.1⟩))

/-- Concrete instantiation of the C2 theorem: a freshly constructed agent
checked at epoch 100 violates no constraint, so the computed wait is zero. -/
theorem wait_time_is_max_of_violated_witness :
    calculate_wait_time
      { upload_delay := 5, max_uploads_per_hour := 100,
        max_uploads_per_day := 1000, burst_limit := 5 }
      (init_state 0)
      { epoch := 100, hour := 0, minute := 0, second := 0,
        microsecond := 0 } = 0 :=
  (wait_time_is_max_of_violated
    { upload_delay := 5, max_uploads_per_hour := 100,
      max_uploads_per_day := 1000, burst_limit := 5 }
    (init_state 0)
    { epoch := 100, hour := 0, minute := 0, second := 0, microsecond := 0 }
    (by decide)).1
    (by unfold DelayWaitPending init_state; norm_num)
    (by unfold BurstWaitPending init_state; simp)
    (by unfold HourWaitPending init_state; norm_num)
    (by unfold DayWaitPending init_state; norm_num)

/-- Concrete instantiation of the C1 theorem: with a configured daily
maximum of 0 the daily constraint is violated on a freshly constructed
agent, so the check at epoch 100 in hour 0 is denied. -/
theorem should_allow_false_iff_violation_witness :
    (should_allow_upload_impl
      { upload_delay := 5, max_uploads_per_hour := 100,
        max_uploads_per_day := 0, burst_limit := 5 }
      (init_state 0)
      { epoch := 100, hour := 0, minute := 0, second := 0,
        microsecond := 0 }).fst = false :=
  (should_allow_false_iff_violation
    { upload_delay := 5, max_uploads_per_hour := 100,
      max_uploads_per_day := 0, burst_limit := 5 }
    (init_state 0)
    { epoch := 100, hour := 0, minute := 0, second := 0, microsecond := 0 }
    (by decide) (Reachable.init 0)).mpr (Or.inl (by decide))

theorem should_allow_snd (cfg : RateLimitConfig) (s : RateLimiterState)
    (now : Clock) :
    (should_allow_upload_impl cfg s now).snd = hourly_reset s now := by
  unfold should_allow_upload_impl should_allow_check
  split_ifs
  any_goals rfl
  split
  · split_ifs <;> rfl
  · rfl

/-- Configuration for the day-boundary scenario: at most 5 uploads per day. -/
def c3_config : RateLimitConfig :=
  { upload_delay := 0, max_uploads_per_hour := 100,
    max_uploads_per_day := 5, burst_limit := 5 }

/-- State after five `record_upload` calls made during hour 23 of some day. -/
def c3_state : RateLimiterState :=
  record_upload_impl c3_config
    (record_upload_impl c3_config
      (record_upload_impl c3_config
        (record_upload_impl c3_config
          (record_upload_impl c3_config (init_state 23) 10) 20) 30) 40) 50

/-- The first admission check after midnight of the following day. -/
def c3_clock : Clock :=
  { epoch := 100000, hour := 0, minute := 0, second := 0, microsecond := 0 }

/-- C3 (divergence witness).  The admission check never resets the daily
counter: `_should_allow_upload_impl` contains no day-boundary check at all
(`last_reset_date` is written in `__init__` and never read again), in
contradiction with its own inline comment ("Check if we need to reset
hourly/daily counters") and with the spec.  After five uploads on one day
with a daily maximum of five, the first check of the next day is denied and
leaves the daily counter at 5 instead of resetting it to zero; the hourly
counter, by contrast, is lazily reset by this very check. -/
theorem daily_counter_not_reset_after_day_boundary :
    c3_state.daily_uploads = 5 ∧
    (should_allow_upload_impl c3_config c3_state c3_clock).fst = false ∧
    ((should_allow_upload_impl c3_config c3_state c3_clock).snd).daily_uploads = 5 ∧
    ((should_allow_upload_impl c3_config c3_state c3_clock).snd).hourly_uploads = 0 := by
  have hdaily : c3_state.daily_uploads = 5 := by
    norm_num [c3_state, record_upload_impl, init_state]
  have hcur : c3_state.current_hour = 23 := by
    simp [c3_state, record_upload_impl, init_state]
  have hne : c3_clock.hour ≠ c3_state.current_hour := by
    rw [hcur]; norm_num [c3_clock]
  refine ⟨hdaily, ?_, ?_, ?_⟩
  · unfold should_allow_upload_impl should_allow_check
    rw [hourly_reset_daily, hdaily, if_pos (by norm_num [c3_config])]
  · rw [should_allow_snd, hourly_reset_daily]
    exact hdaily
  · rw [should_allow_snd]
    unfold hourly_reset
    rw [if_pos hne]

/-!
Embedding of the orchestrator workflow (`app/agents/orchestrator.py`).
Paths are strings; the external collaborators (converter, captioning,
publisher) and file-system probes are supplied as an environment record,
with `Except` results modelling Python calls that may raise.  The
file-system effects and lifecycle events of one pipeline pass are reified
as a trace of `Act`ions.
-/

/-- Events and effects performed by one pipeline pass, in order. -/
inductive Act where
  | publish (path : String)
  | record_upload
  | delete_file (path : String)
  | move_to_failed (path : String) (category : String) (reason : String)
  | emit_completed (path : String) (category : String)
      (post_id : Option String) (upload_time : Rat) (was_converted : Bool)
  | emit_failed (path : String) (category : String)
      (error_message : Option String) (error_type : Option String)
      (was_converted : Bool)
deriving DecidableEq, Repr

/-- `FileEvent` from `app/models/events.py` (the fields the workflow reads). -/
structure FileEvent where
  file_path : String
  category : String
  file_size : Nat
deriving DecidableEq, Repr

/-- `UploadResult` from `app/models/events.py` (the fields the workflow reads). -/
structure UploadResult where
  success : Bool
  post_id : Option String
  error_message : Option String
  error_type : Option String
  upload_time : Rat
deriving DecidableEq, Repr

/-- File-system responses consumed by `_validate_file_ready`: whether the
file still exists on entry, and the two `stat().st_size` re-reads
(`none` models an `OSError` from `stat`). -/
structure ReadinessEnv where
  file_present : Bool
  stat1 : Option Nat
  stat2 : Option Nat
deriving DecidableEq, Repr

/-- `_validate_file_ready` (orchestrator.py lines 264-302): reject if the
file disappeared; re-read the size after a settle delay; if it differs from
the size recorded at detection, wait longer and re-read once more, rejecting
when the second re-read still differs from the first; accept otherwise,
updating the recorded size.  Returns the decision and the (possibly
updated) event size. -/
def validate_file_ready (file_size : Nat) (env : ReadinessEnv) : Bool × Nat :=
  if env.file_present = false then (false, file_size)
  else
    match env.stat1 with
    | none => (false, file_size)
    | some current_size =>
      if current_size ≠ file_size then
        match env.stat2 with
        | none => (false, file_size)
        | some final_size =>
          if final_size ≠ current_size then (false, file_size)
          else (true, final_size)
      else (true, file_size)

/-- Environment of one pipeline pass: collaborator outcomes and file-system
probes, in the order the workflow consumes them.  An `Except.error` models
the corresponding Python call raising an exception with that message. -/
structure WorkflowEnv where
  readiness : ReadinessEnv
  conversion_enabled : Bool
  convert_result : Except String (Option String)
  allow_upload : Bool
  analysis_enabled : Bool
  analysis_result : Except String (Option String)
  publish_result : Except String UploadResult
  keep_original : Bool
  processed_present : Bool
  original_present : Bool
  converted_present : Bool
deriving Repr

/-- Terminal status of one pipeline pass. -/
inductive Outcome where
  | skipped
  | completed (success : Bool)
  | errored (msg : String)
deriving DecidableEq, Repr

/-- Python `x or default` on an optional string (`None` and the empty
string are both falsy). -/
def py_or_default (s : Option String) (d : String) : String :=
  match s with
  | some m => if m = "" then d else m
  | none => d

/-- `_handle_successful_upload` (orchestrator.py lines 323-355): delete the
processed file via `cleanup_successful` (which checks existence first);
delete the original when a conversion produced a distinct file, the
keep-original flag is off, and the original still exists; emit the
upload-completed event carrying the original path, category, post id,
upload time and was-converted flag. -/
def handle_successful_upload (processed_path : String) (category : String)
    (result : UploadResult) (original_file_path : String)
    (converted_file_path : Option String) (keep_original : Bool)
    (processed_present original_present : Bool) : List Act :=
  (if processed_present = true then [Act.delete_file processed_path] else []) ++
  (match converted_file_path with
   | some c =>
       if c ≠ original_file_path ∧ keep_original = false ∧ original_present = true
       then [Act.delete_file original_file_path] else []
   | none => []) ++
  [Act.emit_completed original_file_path category result.post_id
     result.upload_time converted_file_path.isSome]

/-- `_handle_failed_upload` (orchestrator.py lines 357-390): move the
original file (not the converted one) to the failed tree with the result
error message (or "Unknown error") as the reason; remove a distinct,
still-present converted artifact; emit the upload-failed event carrying the
original path. -/
def handle_failed_upload (category : String) (result : UploadResult)
    (original_file_path : String) (converted_file_path : Option String)
    (converted_present : Bool) : List Act :=
  [Act.move_to_failed original_file_path category
     (py_or_default result.error_message "Unknown error")] ++
  (match converted_file_path with
   | some c =>
       if c ≠ original_file_path ∧ converted_present = true
       then [Act.delete_file c] else []
   | none => []) ++
  [Act.emit_failed original_file_path category result.error_message
     result.error_type converted_file_path.isSome]

/-- `_handle_workflow_error` (orchestrator.py lines 392-406): move the path
the event currently references to the failed tree, with the exception
message prefixed by "Workflow error: " as the reason. -/
def handle_workflow_error (current_path : String) (category : String)
    (msg : String) : List Act :=
  [Act.move_to_failed current_path category ("Workflow error: " ++ msg)]

/-- `_process_upload_workflow` (orchestrator.py lines 185-262): one pipeline
pass.  A readiness rejection ends the pass with no actions.  Conversion,
when enabled and applicable, redirects `file_event.file_path` to the
converted file while `original_file_path` keeps the detected path.  The
admission check and wait (steps 2) have no trace-relevant effect.  An
exception raised by conversion, analysis or publishing is caught by the
surrounding handler, which files the event's current path.  When publishing
returns a result, `record_upload` runs once, then the success or failure
handler. -/
def process_upload_workflow (ev : FileEvent) (env : WorkflowEnv) :
    List Act × Outcome :=
  if (validate_file_ready ev.file_size env.readiness).fst = false then
    ([], Outcome.skipped)
  else
    let original_file_path := ev.file_path
    match (if env.conversion_enabled then env.convert_result
           else Except.ok none) with
    | Except.error msg =>
        (handle_workflow_error ev.file_path ev.category msg, Outcome.errored msg)
    | Except.ok conv =>
      let converted_file_path := conv
      let current_path :=
        match conv with
        | some p => p
        | none => ev.file_path
      match (if env.analysis_enabled then env.analysis_result
             else Except.ok none) with
      | Except.error msg =>
          (handle_workflow_error current_path ev.category msg,
           Outcome.errored msg)
      | Except.ok _caption =>
        match env.publish_result with
        | Except.error msg =>
            (handle_workflow_error current_path ev.category msg,
             Outcome.errored msg)
        | Except.ok result =>
          if result.success = true then
            (Act.publish current_path :: Act.record_upload ::
               handle_successful_upload current_path ev.category result
                 original_file_path converted_file_path env.keep_original
                 env.processed_present env.original_present,
             Outcome.completed true)
          else
            (Act.publish current_path :: Act.record_upload ::
               handle_failed_upload ev.category result original_file_path
                 converted_file_path env.converted_present,
             Outcome.completed false)

/-- `_main_workflow` (orchestrator.py lines 149-183): the consumer loop
processes every queued event; per-event errors are caught inside
`process_upload_workflow` (and a further catch in the loop body), so
processing one event always continues to the next. -/
def main_workflow (queue : List (FileEvent × WorkflowEnv)) :
    List (List Act × Outcome) :=
  queue.map (fun p => process_upload_workflow p.1 p.2)

/-- Event for the workflow-error scenario: an AVIF file that will be
converted before publishing raises. -/
def c4_event : FileEvent :=
  { file_path := "/upload/cat/a.avif", category := "cat", file_size := 1000 }

/-- Environment for the workflow-error scenario: readiness passes,
conversion rewrites the event path to the JPG, analysis is disabled, and
the publish call raises "boom". -/
def c4_env : WorkflowEnv :=
  { readiness := { file_present := true, stat1 := some 1000, stat2 := some 1000 }
    conversion_enabled := true
    convert_result := Except.ok (some "/upload/cat/a.jpg")
    allow_upload := true
    analysis_enabled := false
    analysis_result := Except.ok none
    publish_result := Except.error "boom"
    keep_original := false
    processed_present := true
    original_present := true
    converted_present := true }

/-- C4 (counterexample).  When conversion has already replaced the event's
path and a later step raises, `_handle_workflow_error` files
`file_event.file_path` — the converted file — not the original detected
path: the pass moves `/upload/cat/a.jpg` into the failed tree, and no
action touches the original `/upload/cat/a.avif`. -/
theorem workflow_error_files_converted_path :
    process_upload_workflow c4_event c4_env =
      ([Act.move_to_failed "/upload/cat/a.jpg" "cat" "Workflow error: boom"],
       Outcome.errored "boom") ∧
    "/upload/cat/a.jpg" ≠ c4_event.file_path := by
  constructor
  · rfl
  · decide

/-- C4 (amended).  An unexpected exception raised by any fallible pipeline
step — conversion, analysis or publish, in any configuration — is caught and
treated like a publish failure, except that the file moved into the failed
tree is the one the event currently references: the converted file when
conversion has already replaced the event's path, otherwise the original.
The reason is the exception message prefixed "Workflow error: ", and the
consumer loop is not aborted: the next queued event is still processed.
The hypotheses use the effective step outcomes (`if enabled then result
else Except.ok none`), so disabled steps, conversions returning no new
path, and enabled analysis are all covered: a conversion raise files the
(still original) event path; an analysis or publish raise files
`conv.getD ev.file_path`, the event path as redirected by whatever
conversion produced. -/
theorem workflow_error_moves_current_path (ev : FileEvent) (env : WorkflowEnv)
    (msg : String) (conv cap : Option String)
    (rest : List (FileEvent × WorkflowEnv))
    (hval : (validate_file_ready ev.file_size env.readiness).fst = true) :
    ((if env.conversion_enabled then env.convert_result
      else Except.ok none) = Except.error msg →
       process_upload_workflow ev env =
         ([Act.move_to_failed ev.file_path ev.category
             ("Workflow error: " ++ msg)], Outcome.errored msg)) ∧
    ((if env.conversion_enabled then env.convert_result
      else Except.ok none) = Except.ok conv →
     (if env.analysis_enabled then env.analysis_result
      else Except.ok none) = Except.error msg →
       process_upload_workflow ev env =
         ([Act.move_to_failed (conv.getD ev.file_path) ev.category
             ("Workflow error: " ++ msg)], Outcome.errored msg)) ∧
    ((if env.conversion_enabled then env.convert_result
      else Except.ok none) = Except.ok conv →
     (if env.analysis_enabled then env.analysis_result
      else Except.ok none) = Except.ok cap →
     env.publish_result = Except.error msg →
       process_upload_workflow ev env =
         ([Act.move_to_failed (conv.getD ev.file_path) ev.category
             ("Workflow error: " ++ msg)], Outcome.errored msg)) ∧
    main_workflow ((ev, env) :: rest) =
      process_upload_workflow ev env :: main_workflow rest := by
  refine ⟨?_, ?_, ?_, ?_⟩
  · intro hc
    simp [process_upload_workflow, hval, hc, handle_workflow_error]
  · intro hc ha
    rcases conv with _ | p <;>
      simp [process_upload_workflow, hval, hc, ha, handle_workflow_error]
  · intro hc ha hpub
    rcases conv with _ | p <;>
      simp [process_upload_workflow, hval, hc, ha, hpub,
        handle_workflow_error]
  · rfl

/-- Concrete instantiation of the amended C4 theorem on the scenario
environment (publish raises after a conversion): the converted path is the
one filed. -/
theorem workflow_error_moves_current_path_witness :
    process_upload_workflow c4_event c4_env =
      ([Act.move_to_failed "/upload/cat/a.jpg" "cat" "Workflow error: boom"],
       Outcome.errored "boom") :=
  (workflow_error_moves_current_path c4_event c4_env "boom"
      (some "/upload/cat/a.jpg") none [] (by rfl)).2.2.1 rfl rfl rfl

/-- C6 (counterexample).  A file detected at 1000 bytes whose first
readiness re-check also reads 1000 bytes is accepted immediately: the
second re-check is never consulted (here it would read 1500), so the claim
that this file is rejected is false — `_validate_file_ready` performs the
second re-check only when the first re-check differs from the size recorded
at detection. -/
theorem stable_then_growing_file_accepted :
    validate_file_ready 1000
      { file_present := true, stat1 := some 1000, stat2 := some 1500 } =
      (true, 1000) := rfl

/-- C6 (amended).  For a present file with two available size readings, the
readiness validator rejects exactly when the first re-check differs from
the size recorded at detection AND the second re-check differs from the
first; in particular a file whose first re-check equals the detected size
is accepted without a second re-check. -/
theorem readiness_rejects_iff_both_checks_differ (size0 s1 s2 : Nat)
    (env : ReadinessEnv) (hp : env.file_present = true)
    (h1 : env.stat1 = some s1) (h2 : env.stat2 = some s2) :
    (validate_file_ready size0 env).fst = false ↔ (s1 ≠ size0 ∧ s2 ≠ s1) := by
  unfold validate_file_ready
  rw [hp, h1, h2]
  by_cases d1 : s1 = size0
  · subst d1; simp
  · by_cases d2 : s2 = s1
    · subst d2; simp [d1]
    · simp [d1, d2]

/-- Concrete instantiation of the amended C6 theorem: detected at 1000,
re-checked at 1200 then 1500, the file is rejected. -/
theorem readiness_rejects_iff_both_checks_differ_witness :
    (validate_file_ready 1000
      { file_present := true, stat1 := some 1200, stat2 := some 1500 }).fst =
      false :=
  (readiness_rejects_iff_both_checks_differ 1000 1200 1500
    { file_present := true, stat1 := some 1200, stat2 := some 1500 }
    rfl rfl rfl).mpr (by decide)

/-- C7.  A pass whose file size differs between the two readiness re-checks
(and from the detected size, which is what triggers the second re-check) is
skipped outright: the pipeline performs no action at all — in particular the
file is neither deleted nor moved into the failed tree, and nothing is
recorded against the rate limiter — leaving the file in the watched
directory for a future rescan. -/
theorem growing_file_skipped_without_terminal_action (ev : FileEvent)
    (env : WorkflowEnv) (s1 s2 : Nat)
    (hp : env.readiness.file_present = true)
    (h1 : env.readiness.stat1 = some s1)
    (h2 : env.readiness.stat2 = some s2)
    (hd1 : s1 ≠ ev.file_size) (hd2 : s2 ≠ s1) :
    process_upload_workflow ev env = ([], Outcome.skipped) := by
  have hrej : (validate_file_ready ev.file_size env.readiness).fst = false := by
    unfold validate_file_ready
    rw [hp, h1, h2]
    simp [hd1, hd2]
  unfold process_upload_workflow
  rw [if_pos hrej]

/-- Concrete instantiation of the C7 theorem: detected at 1000, re-checked
at 1200 then 1500, the pass is skipped with an empty action trace. -/
theorem growing_file_skipped_without_terminal_action_witness :
    process_upload_workflow
      { file_path := "/upload/cat/grow.png", category := "cat",
        file_size := 1000 }
      { readiness :=
          { file_present := true, stat1 := some 1200, stat2 := some 1500 }
        conversion_enabled := false
        convert_result := Except.ok none
        allow_upload := true
        analysis_enabled := false
        analysis_result := Except.ok none
        publish_result := Except.error "never reached"
        keep_original := false
        processed_present := true
        original_present := true
        converted_present := false } = ([], Outcome.skipped) :=
  growing_file_skipped_without_terminal_action _ _ 1200 1500 rfl rfl rfl
    (by decide) (by decide)

/-- Reduction helper: a pass whose readiness check succeeds and whose
conversion, analysis and publish calls all return normally hands the
outcome to the success or failure handler after publishing and recording. -/
theorem process_publish_ok (ev : FileEvent) (env : WorkflowEnv)
    (conv cap : Option String) (r : UploadResult)
    (hval : (validate_file_ready ev.file_size env.readiness).fst = true)
    (hconv : (if env.conversion_enabled then env.convert_result
              else Except.ok none) = Except.ok conv)
    (hana : (if env.analysis_enabled then env.analysis_result
             else Except.ok none) = Except.ok cap)
    (hpub : env.publish_result = Except.ok r) :
    process_upload_workflow ev env =
      if r.success = true then
        (Act.publish (conv.getD ev.file_path) :: Act.record_upload ::
           handle_successful_upload (conv.getD ev.file_path) ev.category r
             ev.file_path conv env.keep_original env.processed_present
             env.original_present,
         Outcome.completed true)
      else
        (Act.publish (conv.getD ev.file_path) :: Act.record_upload ::
           handle_failed_upload ev.category r ev.file_path conv
             env.converted_present,
         Outcome.completed false) := by
  unfold process_upload_workflow
  rw [hval]
  simp only [Bool.true_eq_false, if_false]
  rw [hconv, hana, hpub]
  rcases conv with _ | p <;> rfl

/-- C8.  A pass in which the publisher reports success deletes the
processed file (the converted file when conversion occurred, otherwise the
original, provided it is still present); additionally deletes the original
when a conversion produced a distinct file, the keep-original flag is off
and the original still exists; and emits the upload-completed event
carrying the original path, category, post id, upload time and
was-converted flag. -/
theorem successful_upload_cleanup_and_event (ev : FileEvent)
    (env : WorkflowEnv) (conv cap : Option String) (r : UploadResult)
    (hval : (validate_file_ready ev.file_size env.readiness).fst = true)
    (hconv : (if env.conversion_enabled then env.convert_result
              else Except.ok none) = Except.ok conv)
    (hana : (if env.analysis_enabled then env.analysis_result
             else Except.ok none) = Except.ok cap)
    (hpub : env.publish_result = Except.ok r)
    (hsucc : r.success = true) (hproc : env.processed_present = true) :
    Act.delete_file (conv.getD ev.file_path) ∈
      (process_upload_workflow ev env).fst ∧
    (∀ c : String, conv = some c → c ≠ ev.file_path →
       env.keep_original = false → env.original_present = true →
       Act.delete_file ev.file_path ∈ (process_upload_workflow ev env).fst) ∧
    Act.emit_completed ev.file_path ev.category r.post_id r.upload_time
      conv.isSome ∈ (process_upload_workflow ev env).fst ∧
    (process_upload_workflow ev env).snd = Outcome.completed true := by
  rw [process_publish_ok ev env conv cap r hval hconv hana hpub, if_pos hsucc]
  refine ⟨?_, ?_, ?_, rfl⟩
  · simp [handle_successful_upload, hproc]
  · intro c hc hne hkeep horig
    subst hc
    simp [handle_successful_upload]
    exact Or.inr ⟨hne, hkeep, horig⟩
  · simp [handle_successful_upload]

/-- Event for the successful-pass scenario. -/
def c8_event : FileEvent :=
  { file_path := "/upload/art/b.avif", category := "art", file_size := 2000 }

/-- Publisher result for the successful-pass scenario. -/
def c8_result : UploadResult :=
  { success := true, post_id := some "42", error_message := none,
    error_type := none, upload_time := 3 }

/-- Environment for the successful-pass scenario: conversion produced a
distinct JPG, keep-original is off, every probed file is present. -/
def c8_env : WorkflowEnv :=
  { readiness := { file_present := true, stat1 := some 2000, stat2 := some 2000 }
    conversion_enabled := true
    convert_result := Except.ok (some "/upload/art/b.jpg")
    allow_upload := true
    analysis_enabled := false
    analysis_result := Except.ok none
    publish_result := Except.ok c8_result
    keep_original := false
    processed_present := true
    original_present := true
    converted_present := true }

/-- Concrete instantiation of the C8 theorem: the converted file and the
original are both deleted, and the upload-completed event carries the
original path and the converted flag. -/
theorem successful_upload_cleanup_and_event_witness :
    Act.delete_file "/upload/art/b.jpg" ∈
      (process_upload_workflow c8_event c8_env).fst ∧
    Act.delete_file "/upload/art/b.avif" ∈
      (process_upload_workflow c8_event c8_env).fst ∧
    Act.emit_completed "/upload/art/b.avif" "art" (some "42") 3 true ∈
      (process_upload_workflow c8_event c8_env).fst := by
  have h := successful_upload_cleanup_and_event c8_event c8_env
    (some "/upload/art/b.jpg") none c8_result rfl rfl rfl rfl rfl rfl
  exact ⟨h.1, h.2.1 "/upload/art/b.jpg" rfl (by decide) rfl rfl, h.2.2.1⟩

/-- Number of `record_upload` calls in an action trace. -/
def record_count : List Act → Nat
  | [] => 0
  | Act.record_upload :: rest => record_count rest + 1
  | _ :: rest => record_count rest

theorem record_count_append (l1 l2 : List Act) :
    record_count (l1 ++ l2) = record_count l1 + record_count l2 := by
  induction l1 with
  | nil => simp [record_count]
  | cons a t ih =>
    cases a <;> simp [record_count, ih] <;> omega

theorem record_count_ite (c : Prop) [inst : Decidable c] (l1 l2 : List Act) :
    record_count (if c then l1 else l2) =
      if c then record_count l1 else record_count l2 := by
  split_ifs <;> rfl

theorem record_count_handle_successful (processed_path category : String)
    (r : UploadResult) (original : String) (conv : Option String)
    (keep pp op : Bool) :
    record_count (handle_successful_upload processed_path category r original
      conv keep pp op) = 0 := by
  unfold handle_successful_upload
  rcases conv with _ | c <;>
    simp [record_count_append, record_count_ite, record_count]

theorem record_count_handle_failed (category : String) (r : UploadResult)
    (original : String) (conv : Option String) (cp : Bool) :
    record_count (handle_failed_upload category r original conv cp) = 0 := by
  unfold handle_failed_upload
  rcases conv with _ | c <;>
    simp [record_count_append, record_count_ite, record_count]

/-- C9.  `record_upload` is called exactly once — immediately after the
publish attempt — in every pass where the publish call returns a result
(whatever its success flag), and is not called at all in a pass that ends
earlier: a readiness rejection, an exception raised by conversion, an
exception raised by analysis, or an exception raised by the publish call
itself. -/
theorem record_upload_once_iff_publish_returned (ev : FileEvent)
    (env : WorkflowEnv) (conv cap : Option String) (r : UploadResult)
    (mc ma mp : String) :
    ((validate_file_ready ev.file_size env.readiness).fst = true →
     (if env.conversion_enabled then env.convert_result
      else Except.ok none) = Except.ok conv →
     (if env.analysis_enabled then env.analysis_result
      else Except.ok none) = Except.ok cap →
     env.publish_result = Except.ok r →
       (∃ rest : List Act,
          (process_upload_workflow ev env).fst =
            Act.publish (conv.getD ev.file_path) :: Act.record_upload :: rest ∧
          record_count rest = 0) ∧
       record_count (process_upload_workflow ev env).fst = 1) ∧
    ((validate_file_ready ev.file_size env.readiness).fst = false →
       record_count (process_upload_workflow ev env).fst = 0) ∧
    ((validate_file_ready ev.file_size env.readiness).fst = true →
     (if env.conversion_enabled then env.convert_result
      else Except.ok none) = Except.error mc →
       record_count (process_upload_workflow ev env).fst = 0) ∧
    ((validate_file_ready ev.file_size env.readiness).fst = true →
     (if env.conversion_enabled then env.convert_result
      else Except.ok none) = Except.ok conv →
     (if env.analysis_enabled then env.analysis_result
      else Except.ok none) = Except.error ma →
       record_count (process_upload_workflow ev env).fst = 0) ∧
    ((validate_file_ready ev.file_size env.readiness).fst = true →
     (if env.conversion_enabled then env.convert_result
      else Except.ok none) = Except.ok conv →
     (if env.analysis_enabled then env.analysis_result
      else Except.ok none) = Except.ok cap →
     env.publish_result = Except.error mp →
       record_count (process_upload_workflow ev env).fst = 0) := by
  refine ⟨?_, ?_, ?_, ?_, ?_⟩
  · intro hval hconv hana hpub
    rw [process_publish_ok ev env conv cap r hval hconv hana hpub]
    by_cases hs : r.success = true
    · rw [if_pos hs]
      constructor
      · exact ⟨_, rfl, record_count_handle_successful _ _ _ _ _ _ _ _⟩
      · have h0 := record_count_handle_successful
          (conv.getD ev.file_path) ev.category r ev.file_path conv
          env.keep_original env.processed_present env.original_present
        simp only [record_count, h0]
    · rw [if_neg hs]
      constructor
      · exact ⟨_, rfl, record_count_handle_failed _ _ _ _ _⟩
      · rcases conv with _ | c <;>
          simp [handle_failed_upload, record_count_append, record_count_ite,
            record_count]
  · intro hval
    unfold process_upload_workflow
    rw [if_pos hval]
    rfl
  · intro hval hconv
    unfold process_upload_workflow
    rw [hval]
    simp only [Bool.true_eq_false, if_false]
    rw [hconv]
    rfl
  · intro hval hconv hana
    unfold process_upload_workflow
    rw [hval]
    simp only [Bool.true_eq_false, if_false]
    rw [hconv, hana]
    rcases conv with _ | p <;> rfl
  · intro hval hconv hana hpub
    unfold process_upload_workflow
    rw [hval]
    simp only [Bool.true_eq_false, if_false]
    rw [hconv, hana, hpub]
    rcases conv with _ | p <;> rfl

/-- Concrete instantiation of the C9 theorem on the successful-pass
scenario: exactly one `record_upload` appears in the trace. -/
theorem record_upload_once_iff_publish_returned_witness :
    record_count (process_upload_workflow c8_event c8_env).fst = 1 :=
  ((record_upload_once_iff_publish_returned c8_event c8_env
      (some "/upload/art/b.jpg") none c8_result "x" "x" "x").1
    rfl rfl rfl rfl).2

/-!
Embedding of `_move_to_failed_impl` (`app/agents/file_manager.py` lines
57-98).  File names are strings; the directory listing of
`failed/<category>` is a list of names.  Python's `f"{stem}_{counter}{suffix}"`
is embedded with a decimal rendering of the counter whose injectivity is
proved below (via a decoding function), which in turn bounds the
`while destination.exists()` loop: among `len(existing) + 1` pairwise
distinct candidate names at least one is not taken.
-/

/-- Decimal rendering of a natural number, digit characters in order
(Python `str(counter)`). -/
def nat_repr (n : Nat) : String :=
  if n = 0 then "0"
  else ((Nat.digits 10 n).reverse.map Nat.digitChar).asString

/-- Left inverse of `nat_repr` on character lists. -/
def decode_digits (l : List Char) : Nat :=
  l.foldl (fun acc c => acc * 10 + (c.toNat - 48)) 0

theorem digit_char_roundtrip : ∀ d < 10, (Nat.digitChar d).toNat - 48 = d := by
  decide

theorem decode_digits_map (l : List Nat) (h : ∀ d ∈ l, d < 10) :
    ∀ acc : Nat,
      (l.map Nat.digitChar).foldl (fun acc c => acc * 10 + (c.toNat - 48)) acc =
        l.foldl (fun acc d => acc * 10 + d) acc := by
  induction l with
  | nil => intro acc; rfl
  | cons d t ih =>
    intro acc
    simp only [List.map_cons, List.foldl_cons]
    rw [digit_char_roundtrip d (h d (List.mem_cons_self d t))]
    exact ih (fun x hx => h x (List.mem_cons_of_mem d hx)) (acc * 10 + d)

theorem foldr_eq_ofDigits (l : List Nat) :
    l.foldr (fun d acc => acc * 10 + d) 0 = Nat.ofDigits 10 l := by
  induction l with
  | nil => simp [Nat.ofDigits]
  | cons d t ih =>
    simp only [List.foldr_cons, ih, Nat.ofDigits_cons]
    ring

theorem decode_nat_repr (n : Nat) : decode_digits (nat_repr n).data = n := by
  by_cases h0 : n = 0
  · subst h0; rfl
  · unfold nat_repr
    rw [if_neg h0]
    show decode_digits ((Nat.digits 10 n).reverse.map Nat.digitChar) = n
    unfold decode_digits
    rw [decode_digits_map _
      (fun d hd => Nat.digits_lt_base (by norm_num) (List.mem_reverse.mp hd)) 0]
    rw [List.foldl_reverse]
    exact Eq.trans (foldr_eq_ofDigits (Nat.digits 10 n)) (Nat.ofDigits_digits 10 n)

theorem nat_repr_data_inj (m n : Nat)
    (h : (nat_repr m).data = (nat_repr n).data) : m = n := by
  have hm := decode_nat_repr m
  rw [h, decode_nat_repr n] at hm
  exact hm.symm

/-- Candidate destination name `f"{stem}_{counter}{suffix}"`. -/
def cand_name (stem suffix : String) (k : Nat) : String :=
  stem ++ "_" ++ nat_repr k ++ suffix

theorem cand_name_inj (stem suffix : String) (k1 k2 : Nat)
    (h : cand_name stem suffix k1 = cand_name stem suffix k2) : k1 = k2 := by
  have hd := congrArg String.data h
  simp only [cand_name, String.data_append] at hd
  exact nat_repr_data_inj k1 k2
    (List.append_cancel_left (List.append_cancel_right hd))

/-- The `while destination.exists()` loop of `_move_to_failed_impl`
(file_manager.py lines 74-79), with explicit fuel: starting at counter `k`,
return the first candidate name not present in the directory listing.  The
fuel `existing.length + 1` used below is always sufficient because
candidate names are pairwise distinct. -/
def find_destination (existing : List String) (stem suffix : String) :
    Nat → Nat → Option String
  | _, 0 => none
  | k, fuel+1 =>
    if cand_name stem suffix k ∈ existing then
      find_destination existing stem suffix (k+1) fuel
    else some (cand_name stem suffix k)

theorem find_destination_none (ex : List String) (stem suffix : String) :
    ∀ (fuel k : Nat), find_destination ex stem suffix k fuel = none →
      ∀ j : Nat, k ≤ j → j < k + fuel → cand_name stem suffix j ∈ ex := by
  intro fuel
  induction fuel with
  | zero => intro k h j h1 h2; omega
  | succ f ih =>
    intro k h j h1 h2
    simp only [find_destination] at h
    by_cases hc : cand_name stem suffix k ∈ ex
    · rw [if_pos hc] at h
      rcases Nat.eq_or_lt_of_le h1 with rfl | hlt
      · exact hc
      · exact ih (k+1) h j hlt (by omega)
    · rw [if_neg hc] at h
      simp at h

theorem find_destination_some (ex : List String) (stem suffix : String) :
    ∀ (fuel k : Nat) (d : String),
      find_destination ex stem suffix k fuel = some d →
      d ∉ ex ∧ ∃ j : Nat, k ≤ j ∧ d = cand_name stem suffix j ∧
        ∀ i : Nat, k ≤ i → i < j → cand_name stem suffix i ∈ ex := by
  intro fuel
  induction fuel with
  | zero => intro k d h; simp [find_destination] at h
  | succ f ih =>
    intro k d h
    simp only [find_destination] at h
    by_cases hc : cand_name stem suffix k ∈ ex
    · rw [if_pos hc] at h
      obtain ⟨hnotin, j, hkj, hd, hmin⟩ := ih (k+1) d h
      refine ⟨hnotin, j, by omega, hd, fun i hki hij => ?_⟩
      rcases Nat.eq_or_lt_of_le hki with rfl | hlt
      · exact hc
      · exact hmin i hlt hij
    · rw [if_neg hc] at h
      injection h with h
      subst h
      exact ⟨hc, k, le_refl k, rfl,
        fun i h1 h2 => absurd (lt_of_le_of_lt h1 h2) (lt_irrefl k)⟩

theorem find_destination_total (ex : List String) (stem suffix : String)
    (k : Nat) : find_destination ex stem suffix k (ex.length + 1) ≠ none := by
  intro hnone
  have hmem := find_destination_none ex stem suffix (ex.length + 1) k hnone
  have hf : ∀ j ∈ Finset.Ico k (k + (ex.length + 1)),
      cand_name stem suffix j ∈ ex.toFinset := fun j hj =>
    List.mem_toFinset.mpr
      (hmem j (Finset.mem_Ico.mp hj).1 (Finset.mem_Ico.mp hj).2)
  have hinj : Set.InjOn (cand_name stem suffix)
      ↑(Finset.Ico k (k + (ex.length + 1))) :=
    fun a _ b _ hab => cand_name_inj stem suffix a b hab
  have hcard := Finset.card_le_card_of_injOn (cand_name stem suffix) hf hinj
  rw [Nat.card_Ico] at hcard
  have hlen := List.toFinset_card_le ex
  omega

/-- The destination chosen by `_move_to_failed_impl`: the plain
`<stem><suffix>` name when free, otherwise the first free
`<stem>_<counter><suffix>` starting from counter 1. -/
def move_destination (existing : List String) (stem suffix : String) :
    Option String :=
  if stem ++ suffix ∈ existing then
    find_destination existing stem suffix 1 (existing.length + 1)
  else some (stem ++ suffix)

/-- File-system operations performed by `_move_to_failed_impl`. -/
inductive FsOp where
  | mkdir_category (category : String)
  | move (source : String) (category : String) (destination : String)
deriving DecidableEq, Repr

/-- File-system responses consumed by `_move_to_failed_impl`: whether the
source file exists, the listing of `failed/<category>`, and whether the
`shutil.move` call raises. -/
structure MoveEnv where
  source_present : Bool
  existing : List String
  move_raises : Bool
deriving Repr

/-- `_move_to_failed_impl` (file_manager.py lines 57-98): return `false`
with no file-system effect when the source file does not exist; otherwise
create `failed/<category>`, compute a non-clashing destination name, and
move the file there, returning `false` (after the mkdir) if the move
raises.  The source file name is `stem ++ suffix` (`Path.stem` and
`Path.suffix`).  The `none` fallback of the destination search is
unreachable: `find_destination_total` shows the fuel always suffices. -/
def move_to_failed_impl (env : MoveEnv) (stem suffix category : String) :
    Bool × List FsOp :=
  if env.source_present = false then (false, [])
  else
    match move_destination env.existing stem suffix with
    | some dest =>
        if env.move_raises = true then (false, [FsOp.mkdir_category category])
        else (true, [FsOp.mkdir_category category,
                     FsOp.move (stem ++ suffix) category dest])
    | none => (false, [FsOp.mkdir_category category])

/-- C5.  When the publisher reports failure, the pass files the original
detected path (not a converted variant) under the event's category with the
publisher's error message as the reason; and `_move_to_failed_impl`, when
the source exists and the move succeeds, creates the category directory and
moves the file to the plain `<stem><suffix>` name when free, otherwise to
`<stem>_<k><suffix>` for the smallest counter `k ≥ 1` whose name is free. -/
theorem failed_publish_moves_original_with_dedup (ev : FileEvent)
    (env : WorkflowEnv) (conv cap : Option String) (r : UploadResult)
    (menv : MoveEnv) (stem suffix category : String)
    (hval : (validate_file_ready ev.file_size env.readiness).fst = true)
    (hconv : (if env.conversion_enabled then env.convert_result
              else Except.ok none) = Except.ok conv)
    (hana : (if env.analysis_enabled then env.analysis_result
             else Except.ok none) = Except.ok cap)
    (hpub : env.publish_result = Except.ok r)
    (hfail : r.success = false)
    (hsrc : menv.source_present = true)
    (hmove : menv.move_raises = false) :
    (Act.move_to_failed ev.file_path ev.category
        (py_or_default r.error_message "Unknown error") ∈
      (process_upload_workflow ev env).fst) ∧
    (∃ d : String,
      move_to_failed_impl menv stem suffix category =
        (true, [FsOp.mkdir_category category,
                FsOp.move (stem ++ suffix) category d]) ∧
      d ∉ menv.existing ∧
      (stem ++ suffix ∉ menv.existing → d = stem ++ suffix) ∧
      (stem ++ suffix ∈ menv.existing →
        ∃ k : Nat, 1 ≤ k ∧ d = cand_name stem suffix k ∧
          ∀ j : Nat, 1 ≤ j → j < k → cand_name stem suffix j ∈ menv.existing)) := by
  constructor
  · rw [process_publish_ok ev env conv cap r hval hconv hana hpub,
      if_neg (by rw [hfail]; exact Bool.false_ne_true)]
    simp [handle_failed_upload]
  · unfold move_to_failed_impl
    rw [if_neg (by rw [hsrc]; exact Bool.true_eq_false ▸ (by simp))]
    by_cases hbase : stem ++ suffix ∈ menv.existing
    · have htot := find_destination_total menv.existing stem suffix 1
      rcases hfd : find_destination menv.existing stem suffix 1
          (menv.existing.length + 1) with _ | d
      · exact absurd hfd htot
      · obtain ⟨hnotin, j, h1j, hdj, hmin⟩ :=
          find_destination_some menv.existing stem suffix _ _ _ hfd
        refine ⟨d, ?_, hnotin, fun hc => absurd hbase hc, fun _ =>
          ⟨j, h1j, hdj, hmin⟩⟩
        unfold move_destination
        rw [if_pos hbase, hfd]
        show (if menv.move_raises = true
              then ((false : Bool), [FsOp.mkdir_category category])
              else (true, [FsOp.mkdir_category category,
                           FsOp.move (stem ++ suffix) category d])) = _
        rw [if_neg (by rw [hmove]; exact Bool.false_ne_true)]
    · refine ⟨stem ++ suffix, ?_, hbase, fun _ => rfl,
        fun hc => absurd hc hbase⟩
      unfold move_destination
      rw [if_neg hbase]
      show (if menv.move_raises = true
            then ((false : Bool), [FsOp.mkdir_category category])
            else (true, [FsOp.mkdir_category category,
                         FsOp.move (stem ++ suffix) category (stem ++ suffix)])) = _
      rw [if_neg (by rw [hmove]; exact Bool.false_ne_true)]

/-- Event for the failed-publish scenario. -/
def c5_event : FileEvent :=
  { file_path := "/upload/art/c.avif", category := "art", file_size := 500 }

/-- Publisher result for the failed-publish scenario. -/
def c5_result : UploadResult :=
  { success := false, post_id := none,
    error_message := some "perm denied", error_type := some "permission_error",
    upload_time := 1 }

/-- Environment for the failed-publish scenario (no conversion). -/
def c5_env : WorkflowEnv :=
  { readiness := { file_present := true, stat1 := some 500, stat2 := some 500 }
    conversion_enabled := false
    convert_result := Except.ok none
    allow_upload := true
    analysis_enabled := false
    analysis_result := Except.ok none
    publish_result := Except.ok c5_result
    keep_original := false
    processed_present := true
    original_present := true
    converted_present := false }

/-- File-manager environment for the failed-publish scenario: the failed
category directory has no entry named `c.avif`. -/
def c5_menv : MoveEnv :=
  { source_present := true, existing := [], move_raises := false }

/-- Concrete instantiation of the C5 theorem: the original path is filed
with the publisher's error message, and the destination name is the plain
file name since the failed directory is empty. -/
theorem failed_publish_moves_original_with_dedup_witness :
    Act.move_to_failed "/upload/art/c.avif" "art" "perm denied" ∈
      (process_upload_workflow c5_event c5_env).fst ∧
    move_to_failed_impl c5_menv "c" ".avif" "art" =
      (true, [FsOp.mkdir_category "art", FsOp.move "c.avif" "art" "c.avif"]) := by
  have h := failed_publish_moves_original_with_dedup c5_event c5_env none none
    c5_result c5_menv "c" ".avif" "art" rfl rfl rfl rfl rfl rfl rfl
  exact ⟨h.1, rfl⟩

/-- C10.  A `move_to_failed` call whose source file does not exist returns
`false` and performs no file-system operation: the existence check precedes
both the creation of the failed category directory and the move. -/
theorem move_to_failed_missing_source_noop (env : MoveEnv)
    (stem suffix category : String)
    (habs : env.source_present = false) :
    move_to_failed_impl env stem suffix category = (false, []) := by
  unfold move_to_failed_impl
  rw [if_pos habs]

/-- Concrete instantiation of the C10 theorem. -/
theorem move_to_failed_missing_source_noop_witness :
    move_to_failed_impl
      { source_present := false, existing := ["d.png"], move_raises := false }
      "d" ".png" "art" = (false, []) :=
  move_to_failed_missing_source_noop
    { source_present := false, existing := ["d.png"], move_raises := false }
    "d" ".png" "art" rfl
